import Mathlib

/-!
Verification of the `vincent` voice-chat CLI (session store, assistant
client, turn orchestrator).

The development shallowly embeds the Python modules
`vincent/opencode_client.py`, `vincent/cli.py` and `voice_chat.py`.
Pure helpers become Lean functions; the orchestration loop body becomes a
step function over an explicit environment describing what each external
collaborator (microphone capture, the `opencode` subprocess, the speaker,
the file system) did during one turn.  Code paths that raise Python
exceptions are modelled with `Except String`.

Modelling conventions:
* Python `str` is Lean `String`; `str.strip` / `str.lower` /
  `str.splitlines` are transcribed over the character lists (the ASCII and
  common Unicode whitespace/line-break sets are covered; exotic Unicode
  case mappings are out of the modelled fragment).
* `json.loads` is modelled by `jsonLoads`, a strict recursive-descent
  reader for the JSON fragment the program exchanges: objects, arrays,
  strings (including `\uXXXX` escapes and surrogate pairs), integers and
  the three literals.  Non-integer numeric literals and lone surrogates
  (which Lean strings cannot represent) are rejected.
* `json.dumps(..., indent=2)` on the session payload is modelled by
  `dumpsSessionPayload`, using the default `ensure_ascii=True` escaping.
* Python `dict` values decoded from JSON keep their key/value list; with
  duplicate keys the last occurrence wins, as in `json.loads`.
* `.get` on a non-`dict` raises `AttributeError`; `Json.pyGet` returns the
  corresponding `.error`.
-/

/-! ## Python string primitives -/

/-- The opening-brace character (written via its hex escape). -/
def lbrace : Char := '\x7b'

/-- The closing-brace character (written via its hex escape). -/
def rbrace : Char := '\x7d'

/-- Characters stripped by Python `str.strip()` (whitespace code points). -/
def pyIsSpace (c : Char) : Bool :=
  c.toNat ∈ [9, 10, 11, 12, 13, 28, 29, 30, 31, 32, 133, 160, 5760,
    8192, 8193, 8194, 8195, 8196, 8197, 8198, 8199, 8200, 8201, 8202,
    8232, 8233, 8239, 8287, 12288]

/-- Python `str.strip()`: remove leading and trailing whitespace. -/
def pyStrip (s : String) : String :=
  String.mk (((s.data.dropWhile pyIsSpace).reverse.dropWhile pyIsSpace).reverse)

/-- Python `str.lower()` restricted to ASCII case mapping. -/
def pyLower (s : String) : String :=
  String.mk (s.data.map Char.toLower)

/-- Line-break characters recognised by Python `str.splitlines()`. -/
def pyIsLineBreak (c : Char) : Bool :=
  c.toNat ∈ [10, 11, 12, 13, 28, 29, 30, 133, 8232, 8233]

/-- Worker for `pySplitlines`; `cur` holds the current line reversed and
`afterCR` records that the previous character was a carriage return whose
line was already emitted (so a following `\n` is part of the same
boundary). -/
def pySplitlinesAux : List Char → List Char → Bool → List String
  | [], cur, _ => if cur.isEmpty then [] else [String.mk cur.reverse]
  | c :: rest, cur, afterCR =>
    if afterCR ∧ c = '\n' then
      pySplitlinesAux rest cur false
    else if c = '\r' then
      String.mk cur.reverse :: pySplitlinesAux rest [] true
    else if pyIsLineBreak c then
      String.mk cur.reverse :: pySplitlinesAux rest [] false
    else
      pySplitlinesAux rest (c :: cur) false

/-- Python `str.splitlines()`: split at line boundaries, `\r\n` counting
as a single boundary, with no trailing empty line. -/
def pySplitlines (s : String) : List String :=
  pySplitlinesAux s.data [] false

/-- Python `a or b` on strings: `a` if non-empty, else `b`. -/
def pyOr (a b : String) : String :=
  if a ≠ "" then a else b

/-- Python `a or b` where `a` is `str | None` and `b` is `str | None`:
the left value wins when it is a non-empty string. -/
def pyOrOpt (a b : Option String) : Option String :=
  match a with
  | some s => if s ≠ "" then some s else b
  | none => b

/-- Truthiness of a Python `str | None` value. -/
def optTruthy : Option String → Bool
  | some s => s ≠ ""
  | none => false

/-- Python `int(str)` on an optional sign followed by decimal digits
(surrounding whitespace allowed; underscore digit grouping is not
modelled). -/
def pyIntOfString (s : String) : Option Int :=
  let t := (pyStrip s).data
  let core : List Char → Option Int := fun ds =>
    if ds.isEmpty ∨ ¬ ds.all Char.isDigit then none
    else some (Int.ofNat (ds.foldl (fun a c => a * 10 + (c.toNat - 48)) 0))
  match t with
  | '-' :: ds => (core ds).map Int.neg
  | '+' :: ds => core ds
  | ds => core ds

/-! ## JSON values -/

/-- JSON values as decoded by `json.loads`: objects keep their key/value
list in document order (so `dict` lookups take the last occurrence of a
duplicated key). Numeric payloads are modelled as integers. -/
inductive Json where
  | null
  | bool (b : Bool)
  | num (n : Int)
  | str (s : String)
  | arr (elems : List Json)
  | obj (kvs : List (String × Json))

/-- Lookup in a decoded JSON object, matching Python `dict` construction
from a key/value sequence: the last binding of a key wins. -/
def objLookup (kvs : List (String × Json)) (k : String) : Option Json :=
  kvs.foldl (fun acc kv => if kv.1 = k then some kv.2 else acc) none

/-- The Python type name of a decoded JSON value, as it appears in an
`AttributeError` message. -/
def pyTypeName : Json → String
  | .null => "NoneType"
  | .bool _ => "bool"
  | .num _ => "int"
  | .str _ => "str"
  | .arr _ => "list"
  | .obj _ => "dict"

/-- The `AttributeError` raised by `value.get(...)` on a non-`dict`. -/
def attrErrorMsg (j : Json) : String :=
  "AttributeError: " ++ pyTypeName j ++ " object has no attribute get"

/-- Python `value.get(key)`: `dict.get` on objects, `AttributeError` on
every other decoded JSON value. -/
def Json.pyGet : Json → String → Except String (Option Json)
  | .obj kvs, k => .ok (objLookup kvs k)
  | j, _ => .error (attrErrorMsg j)

/-- Whether a decoded value is a JSON object (a Python `dict`). -/
def optIsObj : Option Json → Bool
  | some (.obj _) => true
  | _ => false

/-- Python `v == "lit"` for a `dict.get` result compared to a string
literal: true exactly on the equal string. -/
def isJsonStrEq (v : Option Json) (s : String) : Bool :=
  match v with
  | some (.str t) => t = s
  | _ => false

/-! ## A model of `json.loads` -/

/-- JSON structural whitespace (space, tab, newline, carriage return). -/
def skipJsonWs (cs : List Char) : List Char :=
  cs.dropWhile (fun c => c = ' ' ∨ c = '\t' ∨ c = '\n' ∨ c = '\r')

/-- Value of one hexadecimal digit (both cases accepted). -/
def fromHexDigit (c : Char) : Option Nat :=
  if 48 ≤ c.toNat ∧ c.toNat ≤ 57 then some (c.toNat - 48)
  else if 97 ≤ c.toNat ∧ c.toNat ≤ 102 then some (c.toNat - 87)
  else if 65 ≤ c.toNat ∧ c.toNat ≤ 70 then some (c.toNat - 55)
  else none

/-- Value of a four-digit hexadecimal escape payload. -/
def hex4Val (h1 h2 h3 h4 : Char) : Option Nat :=
  match fromHexDigit h1, fromHexDigit h2, fromHexDigit h3, fromHexDigit h4 with
  | some a, some b, some c, some d => some (a * 4096 + b * 256 + c * 16 + d)
  | _, _, _, _ => none

/-- Prepend a character to the content of a string-body parse result. -/
def consStr (c : Char) :
    Option (List Char × List Char) → Option (List Char × List Char)
  | some (cs, rest) => some (c :: cs, rest)
  | none => none

mutual

/-- Read a JSON string body (after the opening quote) up to and including
the closing quote, as the strict `json.loads` scanner does.  Raw control
characters are rejected.  The fuel argument bounds the number of reader
steps; each step consumes at least one input character. -/
def readStringBody : Nat → List Char → Option (List Char × List Char)
  | 0, _ => none
  | fuel + 1, cs =>
    match cs with
    | [] => none
    | c :: rest =>
      if c = '"' then some ([], rest)
      else if c = '\\' then readEscape fuel rest
      else if c.toNat < 0x20 then none
      else consStr c (readStringBody fuel rest)

/-- Read one escape sequence after a backslash. -/
def readEscape : Nat → List Char → Option (List Char × List Char)
  | 0, _ => none
  | fuel + 1, cs =>
    match cs with
    | [] => none
    | e :: r2 =>
      if e = '"' then consStr '"' (readStringBody fuel r2)
      else if e = '\\' then consStr '\\' (readStringBody fuel r2)
      else if e = '/' then consStr '/' (readStringBody fuel r2)
      else if e = 'b' then consStr '\x08' (readStringBody fuel r2)
      else if e = 'f' then consStr '\x0c' (readStringBody fuel r2)
      else if e = 'n' then consStr '\n' (readStringBody fuel r2)
      else if e = 'r' then consStr '\r' (readStringBody fuel r2)
      else if e = 't' then consStr '\t' (readStringBody fuel r2)
      else if e = 'u' then readUnicodeEsc fuel r2
      else none

/-- Read the four hex digits of a `\uXXXX` escape; a high surrogate must
be followed by a low-surrogate escape, a lone surrogate is rejected (Lean
strings hold Unicode scalar values only). -/
def readUnicodeEsc : Nat → List Char → Option (List Char × List Char)
  | 0, _ => none
  | fuel + 1, cs =>
    match cs with
    | h1 :: h2 :: h3 :: h4 :: r3 =>
      match hex4Val h1 h2 h3 h4 with
      | none => none
      | some n =>
        if 0xd800 ≤ n ∧ n ≤ 0xdbff then readLowSurrogate fuel n r3
        else if 0xdc00 ≤ n ∧ n ≤ 0xdfff then none
        else consStr (Char.ofNat n) (readStringBody fuel r3)
    | _ => none

/-- Read the low-surrogate escape completing a surrogate pair whose high
half had value `n`. -/
def readLowSurrogate : Nat → Nat → List Char → Option (List Char × List Char)
  | 0, _, _ => none
  | fuel + 1, n, cs =>
    match cs with
    | '\\' :: 'u' :: g1 :: g2 :: g3 :: g4 :: r4 =>
      match hex4Val g1 g2 g3 g4 with
      | none => none
      | some m =>
        if 0xdc00 ≤ m ∧ m ≤ 0xdfff then
          consStr (Char.ofNat (0x10000 + (n - 0xd800) * 0x400 + (m - 0xdc00)))
            (readStringBody fuel r4)
        else none
    | _ => none

end

/-- Numeric value of a non-empty run of decimal digits. -/
def digitsVal (ds : List Char) : Nat :=
  ds.foldl (fun a c => a * 10 + (c.toNat - 48)) 0

mutual

/-- Read one JSON value.  The fuel argument bounds the recursion depth
and member count; `jsonLoads` supplies more fuel than any input can
consume. -/
def readValue : Nat → List Char → Option (Json × List Char)
  | 0, _ => none
  | fuel + 1, cs =>
    match cs with
    | [] => none
    | c :: rest =>
      if c = lbrace then
        let cs1 := skipJsonWs rest
        match cs1 with
        | d :: rest2 => if d = rbrace then some (.obj [], rest2) else readMembers fuel cs1 []
        | [] => none
      else if c = '[' then
        let cs1 := skipJsonWs rest
        match cs1 with
        | d :: rest2 => if d = ']' then some (.arr [], rest2) else readElems fuel cs1 []
        | [] => none
      else if c = '"' then
        (readStringBody fuel rest).map (fun p => (Json.str (String.mk p.1), p.2))
      else if c = 't' then
        match rest with
        | 'r' :: 'u' :: 'e' :: r2 => some (.bool true, r2)
        | _ => none
      else if c = 'f' then
        match rest with
        | 'a' :: 'l' :: 's' :: 'e' :: r2 => some (.bool false, r2)
        | _ => none
      else if c = 'n' then
        match rest with
        | 'u' :: 'l' :: 'l' :: r2 => some (.null, r2)
        | _ => none
      else if c = '-' then
        let ds := rest.takeWhile Char.isDigit
        let r2 := rest.dropWhile Char.isDigit
        if ds.isEmpty then none else some (.num (-(Int.ofNat (digitsVal ds))), r2)
      else if c.isDigit then
        let ds := (c :: rest).takeWhile Char.isDigit
        let r2 := (c :: rest).dropWhile Char.isDigit
        some (.num (Int.ofNat (digitsVal ds)), r2)
      else none

/-- Read the members of a JSON object after its opening brace (first key
expected next, accumulated members in `acc`). -/
def readMembers : Nat → List Char → List (String × Json) →
    Option (Json × List Char)
  | 0, _, _ => none
  | fuel + 1, cs, acc =>
    match skipJsonWs cs with
    | '"' :: rest =>
      match readStringBody fuel rest with
      | none => none
      | some (key, r1) =>
        match skipJsonWs r1 with
        | ':' :: r2 =>
          match readValue fuel (skipJsonWs r2) with
          | none => none
          | some (v, r3) =>
            let acc2 := acc ++ [(String.mk key, v)]
            match skipJsonWs r3 with
            | ',' :: r4 => readMembers fuel r4 acc2
            | d :: r4 => if d = rbrace then some (.obj acc2, r4) else none
            | [] => none
        | _ => none
    | _ => none

/-- Read the elements of a JSON array after its opening bracket. -/
def readElems : Nat → List Char → List Json → Option (Json × List Char)
  | 0, _, _ => none
  | fuel + 1, cs, acc =>
    match readValue fuel (skipJsonWs cs) with
    | none => none
    | some (v, r1) =>
      let acc2 := acc ++ [v]
      match skipJsonWs r1 with
      | ',' :: r2 => readElems fuel r2 acc2
      | ']' :: r2 => some (.arr acc2, r2)
      | _ => none

end

/-- Model of Python `json.loads`: read exactly one JSON document with
optional surrounding structural whitespace. -/
def jsonLoads (s : String) : Option Json :=
  match readValue (s.length + 1) (skipJsonWs s.data) with
  | some (v, rest) => if skipJsonWs rest = [] then some v else none
  | none => none

/-! ## A model of `json.dumps` string escaping -/

/-- One hexadecimal digit character (lowercase), as `json.dumps` emits. -/
def hexDigit (k : Nat) : Char :=
  if k < 10 then Char.ofNat (48 + k) else Char.ofNat (87 + k)

/-- `json.dumps` (default `ensure_ascii=True`) encoding of one character
inside a string literal. -/
def escChar (c : Char) : List Char :=
  if c = '"' then ['\\', '"']
  else if c = '\\' then ['\\', '\\']
  else if c = '\n' then ['\\', 'n']
  else if c = '\r' then ['\\', 'r']
  else if c = '\t' then ['\\', 't']
  else if c = '\x08' then ['\\', 'b']
  else if c = '\x0c' then ['\\', 'f']
  else if 0x20 ≤ c.toNat ∧ c.toNat ≤ 0x7e then [c]
  else if c.toNat < 0x10000 then
    '\\' :: 'u' :: hexDigit (c.toNat / 4096 % 16) :: hexDigit (c.toNat / 256 % 16) ::
      hexDigit (c.toNat / 16 % 16) :: hexDigit (c.toNat % 16) :: []
  else
    let n := c.toNat - 0x10000
    let hi := 0xd800 + n / 0x400
    let lo := 0xdc00 + n % 0x400
    '\\' :: 'u' :: hexDigit (hi / 4096 % 16) :: hexDigit (hi / 256 % 16) ::
      hexDigit (hi / 16 % 16) :: hexDigit (hi % 16) ::
      '\\' :: 'u' :: hexDigit (lo / 4096 % 16) :: hexDigit (lo / 256 % 16) ::
      hexDigit (lo / 16 % 16) :: hexDigit (lo % 16) :: []

/-- `json.dumps` encoding of a string body (without the quotes). -/
def escList (cs : List Char) : List Char :=
  (cs.map escChar).flatten

/-- `json.dumps` of a Python string, quotes included. -/
def jsonQuote (s : String) : String :=
  "\"" ++ String.mk (escList s.data) ++ "\""

/-- `json.dumps({"session_id": id}, indent=2)` as written by
`save_session_id` (before the appended newline). -/
def dumpsSessionPayload (id : String) : String :=
  String.singleton lbrace ++ "\n  " ++ jsonQuote "session_id" ++ ": " ++
    jsonQuote id ++ "\n" ++ String.singleton rbrace


/-- Equality of `Except` results is decidable when both components are. -/
instance exceptDecEq {e a : Type} [DecidableEq e] [DecidableEq a] :
    DecidableEq (Except e a) := fun x y =>
  match x, y with
  | .ok u, .ok v =>
    if h : u = v then isTrue (by rw [h]) else isFalse (by simp [h])
  | .error u, .error v =>
    if h : u = v then isTrue (by rw [h]) else isFalse (by simp [h])
  | .ok _, .error _ => isFalse (by simp)
  | .error _, .ok _ => isFalse (by simp)

/-! ## File-system model for the session state file -/

/-- The session state file as the program can observe it: missing,
present but failing to read (`OSError`), or present with content. -/
inductive FileState where
  | absent
  | unreadable (exc : String)
  | content (text : String)
  deriving DecidableEq

/-! ## `vincent/opencode_client.py` -/

namespace OpencodeClient

/-- Options used to build and run one opencode request
(`OpenCodeRunOptions`). -/
structure OpenCodeRunOptions where
  session_id : Option String
  model : Option String
  agent : Option String
  attach : Option String
  directory : Option String
  deriving DecidableEq

/-- `build_opencode_command`: the opencode command argv for one
conversation turn.  Each `if` mirrors a Python truthiness test on the
optional field. -/
def build_opencode_command (message : String) (options : OpenCodeRunOptions) :
    List String :=
  let command := ["opencode", "run", "--format", "json"]
  let command := match options.session_id with
    | some s => if s ≠ "" then command ++ ["--session", s] else command
    | none => command
  let command := match options.model with
    | some s => if s ≠ "" then command ++ ["--model", s] else command
    | none => command
  let command := match options.agent with
    | some s => if s ≠ "" then command ++ ["--agent", s] else command
    | none => command
  let command := match options.attach with
    | some s => if s ≠ "" then command ++ ["--attach", s] else command
    | none => command
  let command := match options.directory with
    | some s => if s ≠ "" then command ++ ["--dir", s] else command
    | none => command
  command ++ [message]

/-- The loop body of `parse_opencode_events` for one raw line: strip it,
skip blanks and undecodable lines, track the last non-empty `sessionID`,
and append `part.text` of `type == "text"` events.  `event.get` on a
non-object decoded value raises (`Except.error`), as in Python. -/
def parse_events_step (st : List String × Option String) (raw_line : String) :
    Except String (List String × Option String) :=
  let line := pyStrip raw_line
  if line = "" then .ok st
  else
    match jsonLoads line with
    | none => .ok st
    | some event => do
      let event_session_id ← event.pyGet "sessionID"
      let discovered :=
        match event_session_id with
        | some (.str s) => if s ≠ "" then some s else st.2
        | _ => st.2
      let ty ← event.pyGet "type"
      if ¬ isJsonStrEq ty "text" then
        pure (st.1, discovered)
      else do
        let part ← event.pyGet "part"
        match part with
        | some (.obj pkvs) =>
          match objLookup pkvs "text" with
          | some (.str text) =>
            if text ≠ "" then pure (st.1 ++ [text], discovered)
            else pure (st.1, discovered)
          | _ => pure (st.1, discovered)
        | _ => pure (st.1, discovered)

/-- `parse_opencode_events`: parse JSON event lines and return response
text plus session id. -/
def parse_opencode_events (output : String) :
    Except String (String × Option String) := do
  let st ← (pySplitlines output).foldlM parse_events_step ([], none)
  pure (pyStrip (String.join st.1), st.2)

/-- What `subprocess.run` did for one invocation: the executable was
missing (`FileNotFoundError`), launching failed with another `OSError`,
or a process ran to completion with an exit code and captured output. -/
inductive LaunchResult where
  | fileNotFound
  | osError (exc : String)
  | completed (returncode : Int) (stdout stderr : String)
  deriving DecidableEq

/-- `ask_opencode`: send one prompt to opencode and return response text
and session id.  The subprocess outcome is passed in explicitly. -/
def ask_opencode (prompt : String) (options : OpenCodeRunOptions)
    (result : LaunchResult) : Except String (String × Option String) :=
  let _command := build_opencode_command prompt options
  match result with
  | .fileNotFound => .error "`opencode` executable was not found in PATH"
  | .osError exc => .error ("Failed to launch `opencode`: " ++ exc)
  | .completed returncode stdout_ stderr_ =>
    if returncode ≠ 0 then
      .error ("opencode run failed (" ++ toString returncode ++ "): " ++
        pyOr (pyStrip stderr_) (pyStrip stdout_))
    else do
      let (response_text, discovered_session) ← parse_opencode_events stdout_
      pure (response_text, pyOrOpt discovered_session options.session_id)

end OpencodeClient

/-! ## `vincent/cli.py` -/

namespace Cli

/-- `EXIT_PHRASES`. -/
def EXIT_PHRASES : List String := ["exit", "quit", "goodbye"]

/-- `ANSI_RESET`. -/
def ANSI_RESET : String := "\x1b[0m"

/-- `ANSI_BOLD`. -/
def ANSI_BOLD : String := "\x1b[1m"

/-- `SYSTEM_TEXT_COLOR`. -/
def SYSTEM_TEXT_COLOR : String := "\x1b[90m"

/-- `USER_LABEL_COLOR`. -/
def USER_LABEL_COLOR : String := "\x1b[34m"

/-- `ASSISTANT_LABEL_COLOR`. -/
def ASSISTANT_LABEL_COLOR : String := "\x1b[32m"

/-- `ASSISTANT_TEXT_COLOR`. -/
def ASSISTANT_TEXT_COLOR : String := "\x1b[36m"

/-- `apply_ansi`; `ansi` is the value of `supports_ansi()`, which only
reads the environment and the terminal. -/
def apply_ansi (ansi : Bool) (text : String) (styles : List String) : String :=
  if ¬ ansi then text
  else
    let pre := String.join styles
    if pre = "" then text else pre ++ text ++ ANSI_RESET

/-- `format_assistant_text`. -/
def format_assistant_text (ansi : Bool) (text : String) : String :=
  apply_ansi ansi text [ASSISTANT_TEXT_COLOR]

/-- `format_user_text` returns user text unchanged. -/
def format_user_text (text : String) : String := text

/-- `format_user_label`. -/
def format_user_label (ansi : Bool) (text : String) : String :=
  apply_ansi ansi text [ANSI_BOLD, USER_LABEL_COLOR]

/-- `format_assistant_label`. -/
def format_assistant_label (ansi : Bool) (text : String) : String :=
  apply_ansi ansi text [ANSI_BOLD, ASSISTANT_LABEL_COLOR]

/-- The styling `stderr` applies to a status message before writing it. -/
def stderr_msg (ansi : Bool) (message : String) : String :=
  if ansi then SYSTEM_TEXT_COLOR ++ message ++ ANSI_RESET else message

/-- The file content written by `save_session_id`:
`json.dumps({"session_id": id}, indent=2) + "\n"`. -/
def save_file_content (session_id : String) : String :=
  dumpsSessionPayload session_id ++ "\n"

/-- `save_session_id`: overwrite the state file with the session payload
(parent-directory creation has no observable effect in the single-file
model). -/
def save_session_id (_state_path : FileState) (session_id : String) : FileState :=
  FileState.content (save_file_content session_id)

/-- `load_session_id`: read the stored session id.  A missing file and
caught read errors (`OSError`, `json.JSONDecodeError`) yield `none`;
`data.get` on a decoded non-object raises. -/
def load_session_id (state_path : FileState) : Except String (Option String) :=
  match state_path with
  | .absent => .ok none
  | .unreadable _ => .ok none
  | .content text =>
    match jsonLoads text with
    | none => .ok none
    | some data => do
      let session_id ← data.pyGet "session_id"
      match session_id with
      | some (.str s) =>
        if pyStrip s ≠ "" then pure (some (pyStrip s)) else pure none
      | _ => pure none

/-- The branch of `resolve_session_id` taken when `args.session_id` is
falsy. -/
def resolve_session_id_noexplicit (new_session : Bool) (state_path : FileState) :
    Except String (Option String × FileState) :=
  if new_session then .ok (none, state_path)
  else (load_session_id state_path).map (fun r => (r, state_path))

/-- `resolve_session_id`: pick the initial session id from CLI args and
stored state, returning the resolved id together with the resulting state
file. -/
def resolve_session_id (session_id : Option String) (new_session : Bool)
    (state_path : FileState) : Except String (Option String × FileState) :=
  match session_id with
  | some sid =>
    if sid ≠ "" then .ok (some sid, save_session_id state_path sid)
    else resolve_session_id_noexplicit new_session state_path
  | none => resolve_session_id_noexplicit new_session state_path

/-- The loop body of `parse_opencode_events` in `cli.py` (duplicated
verbatim from `opencode_client.py`). -/
def parse_events_step (st : List String × Option String) (raw_line : String) :
    Except String (List String × Option String) :=
  let line := pyStrip raw_line
  if line = "" then .ok st
  else
    match jsonLoads line with
    | none => .ok st
    | some event => do
      let event_session_id ← event.pyGet "sessionID"
      let discovered :=
        match event_session_id with
        | some (.str s) => if s ≠ "" then some s else st.2
        | _ => st.2
      let ty ← event.pyGet "type"
      if ¬ isJsonStrEq ty "text" then
        pure (st.1, discovered)
      else do
        let part ← event.pyGet "part"
        match part with
        | some (.obj pkvs) =>
          match objLookup pkvs "text" with
          | some (.str text) =>
            if text ≠ "" then pure (st.1 ++ [text], discovered)
            else pure (st.1, discovered)
          | _ => pure (st.1, discovered)
        | _ => pure (st.1, discovered)

/-- `parse_opencode_events` as duplicated in `cli.py`. -/
def parse_opencode_events (output : String) :
    Except String (String × Option String) := do
  let st ← (pySplitlines output).foldlM parse_events_step ([], none)
  pure (pyStrip (String.join st.1), st.2)

/-- Modelled collaborator behaviour: `argparse` converts an
`--input-sample-rate` / `--input-channels` token with `type=int`, i.e.
Python `int(...)`; a non-integer token is a parse error.  `parse_args`
in `cli.py` attaches no further validation to these options. -/
def argparse_int_value (raw : String) : Except String Int :=
  match pyIntOfString raw with
  | some n => .ok n
  | none => .error ("argument: invalid int value: " ++ raw)

/-- The conversion `parse_args` applies to `--input-sample-rate`
(`type=int`, no bound check). -/
def parse_input_sample_rate (raw : String) : Except String Int :=
  argparse_int_value raw

/-- The conversion `parse_args` applies to `--input-channels`
(`type=int`, no bound check). -/
def parse_input_channels (raw : String) : Except String Int :=
  argparse_int_value raw

/-! ### The `run_voice_chat` loop body -/

/-- What `capture_turn` did during one iteration. -/
inductive CaptureOutcome where
  | runtimeError (exc : String)
  | keyboardInterrupt
  | ok (text : String) (language : Option String)
  deriving DecidableEq

/-- What `ask_opencode` did during one iteration (its return value or the
exception it raised). -/
inductive AskOutcome where
  | runtimeError (exc : String)
  | keyboardInterrupt
  | ok (text : String) (session : Option String)
  deriving DecidableEq

/-- What `speaker.speak` did. -/
inductive SpeakOutcome where
  | done
  | keyboardInterrupt
  | playbackError (exc : String)
  deriving DecidableEq

/-- The behaviour of the external collaborators during one loop
iteration; `saveError` is the `OSError` raised by `save_session_id`, if
any. -/
structure TurnEnv where
  capture : CaptureOutcome
  ask : AskOutcome
  saveError : Option String
  speak : SpeakOutcome
  deriving DecidableEq

/-- Observable actions of one loop iteration, in order. -/
inductive Action where
  | dispatch (prompt : String)
  | saveSession (id : String)
  | speak (text : String)
  | toStderr (msg : String)
  | toStdout (msg : String)
  deriving DecidableEq

/-- Outcome of one loop iteration: continue with updated state, leave the
loop via `return`, or let an exception escape `run_voice_chat`. -/
inductive IterResult where
  | nextIter (session_id : Option String) (state : FileState) (trace : List Action)
  | stopLoop (trace : List Action)
  | uncaught (exc : String) (trace : List Action)
  deriving DecidableEq

/-- Continuation of the loop body after the session-save block
(`cli.py` lines 403-417): empty-reply check, rendering, speaking. -/
def run_voice_chat_iter_tail (ansi speaker : Bool) (session_id : Option String)
    (fs : FileState) (env : TurnEnv) (assistant_text : String)
    (t : List Action) : IterResult :=
  if assistant_text = "" then
    .nextIter session_id fs
      (t ++ [.toStderr (stderr_msg ansi "opencode returned no text response.\n")])
  else
    let styled := format_assistant_text ansi assistant_text
    let styled_assistant_label := format_assistant_label ansi "Assistant:"
    let t := t ++ [Action.toStdout (styled_assistant_label ++ "\n" ++ styled ++ "\n\n")]
    if speaker then
      match env.speak with
      | .done => .nextIter session_id fs (t ++ [.speak assistant_text])
      | .keyboardInterrupt =>
        .stopLoop (t ++ [.speak assistant_text,
          .toStderr (stderr_msg ansi "Stopped.\n")])
      | .playbackError exc =>
        .nextIter session_id fs (t ++ [.speak assistant_text,
          .toStderr (stderr_msg ansi ("Kokoro playback failed: " ++ exc ++ "\n"))])
    else .nextIter session_id fs t

/-- One iteration of the `while True` loop of `run_voice_chat`
(`cli.py` lines 353-417): capture, empty-transcript check, user
rendering, exit-phrase check, dispatch, session persistence, reply
rendering, speech. -/
def run_voice_chat_iter (ansi speaker : Bool) (state_path_str : String)
    (session_id : Option String) (fs : FileState) (env : TurnEnv) : IterResult :=
  match env.capture with
  | .runtimeError exc =>
    .nextIter session_id fs [.toStderr (stderr_msg ansi (exc ++ "\n")),
      .toStderr (stderr_msg ansi "Please try again.\n")]
  | .keyboardInterrupt => .stopLoop [.toStderr (stderr_msg ansi "Stopped.\n")]
  | .ok user_text detected_language =>
    if user_text = "" then
      .nextIter session_id fs [.toStderr (stderr_msg ansi "No speech detected.\n")]
    else
      let styled_user := format_user_text user_text
      let styled_user_label := format_user_label ansi "You:"
      let t1 := [Action.toStdout (styled_user_label ++ "\n" ++ styled_user ++ "\n\n")]
      let t2 := t1 ++ (match detected_language with
        | some l =>
          if l ≠ "" then
            [Action.toStderr (stderr_msg ansi ("Detected language: " ++ l ++ "\n"))]
          else []
        | none => [])
      if pyLower (pyStrip user_text) ∈ EXIT_PHRASES then
        .stopLoop (t2 ++ [.toStderr (stderr_msg ansi "Exit phrase detected.\n")])
      else
        let t3 := t2 ++ [Action.toStderr (stderr_msg ansi "Asking opencode...\n"),
          Action.dispatch user_text]
        match env.ask with
        | .runtimeError exc =>
          .nextIter session_id fs (t3 ++ [.toStderr (stderr_msg ansi (exc ++ "\n"))])
        | .keyboardInterrupt =>
          .stopLoop (t3 ++ [.toStderr (stderr_msg ansi "Stopped.\n")])
        | .ok assistant_text discovered_session_id =>
          match discovered_session_id with
          | some s =>
            if s ≠ "" ∧ some s ≠ session_id then
              match env.saveError with
              | some exc => .uncaught exc t3
              | none =>
                let t4 := t3 ++ [Action.saveSession s,
                  Action.toStderr (stderr_msg ansi
                    ("Saved opencode session: " ++ s ++ " (" ++ state_path_str ++ ")\n"))]
                run_voice_chat_iter_tail ansi speaker (some s)
                  (save_session_id fs s) env assistant_text t4
            else run_voice_chat_iter_tail ansi speaker session_id fs env assistant_text t3
          | none => run_voice_chat_iter_tail ansi speaker session_id fs env assistant_text t3

end Cli

/-! ## `voice_chat.py` (the standalone script) -/

namespace VoiceChat

/-- The loop body of `parse_opencode_events` in `voice_chat.py`
(duplicated verbatim from the packaged modules). -/
def parse_events_step (st : List String × Option String) (raw_line : String) :
    Except String (List String × Option String) :=
  let line := pyStrip raw_line
  if line = "" then .ok st
  else
    match jsonLoads line with
    | none => .ok st
    | some event => do
      let event_session_id ← event.pyGet "sessionID"
      let discovered :=
        match event_session_id with
        | some (.str s) => if s ≠ "" then some s else st.2
        | _ => st.2
      let ty ← event.pyGet "type"
      if ¬ isJsonStrEq ty "text" then
        pure (st.1, discovered)
      else do
        let part ← event.pyGet "part"
        match part with
        | some (.obj pkvs) =>
          match objLookup pkvs "text" with
          | some (.str text) =>
            if text ≠ "" then pure (st.1 ++ [text], discovered)
            else pure (st.1, discovered)
          | _ => pure (st.1, discovered)
        | _ => pure (st.1, discovered)

/-- `parse_opencode_events` as defined in `voice_chat.py`. -/
def parse_opencode_events (output : String) :
    Except String (String × Option String) := do
  let st ← (pySplitlines output).foldlM parse_events_step ([], none)
  pure (pyStrip (String.join st.1), st.2)

end VoiceChat

/-! ## Specification-side definitions for the event protocol -/

/-- A raw line satisfies the C1 well-formedness hypothesis when it is
blank after stripping or decodes to a JSON object. -/
def goodLine (raw : String) : Bool :=
  pyStrip raw = "" || optIsObj (jsonLoads (pyStrip raw))

/-- The event documents decoded from a list of raw lines, skipping blank
lines, in input order. -/
def decodedLines (lines : List String) : List Json :=
  lines.filterMap (fun raw =>
    if pyStrip raw = "" then none else jsonLoads (pyStrip raw))

/-- The event documents decoded from the raw output. -/
def decodedEvents (output : String) : List Json :=
  decodedLines (pySplitlines output)

/-- Spec: the text chunk one event contributes — `part.text` when the
event object has `type == "text"` and an object-valued `part` whose
`text` is a non-empty string. -/
def specTextChunk : Json → Option String
  | .obj kvs =>
    match objLookup kvs "type" with
    | some (.str "text") =>
      match objLookup kvs "part" with
      | some (.obj pkvs) =>
        match objLookup pkvs "text" with
        | some (.str s) => if s ≠ "" then some s else none
        | _ => none
      | _ => none
    | _ => none
  | _ => none

/-- Spec: the session id one event carries — its `sessionID` field when
that is a non-empty string, whatever the event type. -/
def specSessionOf : Json → Option String
  | .obj kvs =>
    match objLookup kvs "sessionID" with
    | some (.str s) => if s ≠ "" then some s else none
    | _ => none
  | _ => none

/-- Spec: the last non-empty session id carried by any event, starting
from `acc`. -/
def specLastSession (events : List Json) (acc : Option String) : Option String :=
  events.foldl (fun a e =>
    match specSessionOf e with
    | some s => some s
    | none => a) acc

/-- Spec (C1): concatenation, in input order with no separator, of the
text chunks of all `type == "text"` events, trimmed of surrounding
whitespace. -/
def spec_response_text (output : String) : String :=
  pyStrip (String.join ((decodedEvents output).filterMap specTextChunk))

/-- Spec (C1): the last non-empty `sessionID` seen across events of all
types, or null if none carried one. -/
def spec_session_id (output : String) : Option String :=
  specLastSession (decodedEvents output) none

/-- A concrete four-event exchange (the repository's own test vector,
restricted to its JSON lines). -/
def sampleEventsOutput : String :=
  "\x7b\"type\":\"status\",\"sessionID\":\"ses_old\"\x7d\n" ++
  "\x7b\"type\":\"text\",\"sessionID\":\"ses_new\",\"part\":\x7b\"text\":\"Hello \"\x7d\x7d\n" ++
  "\x7b\"type\":\"text\",\"part\":\x7b\"text\":\"world\"\x7d\x7d\n" ++
  "\x7b\"type\":\"tool\",\"part\":\x7b\"text\":\"ignored\"\x7d\x7d\n"

/-- Spec: the optional flag pair contributed by one Run Option — present
exactly when the option is a non-empty string. -/
def optFlagPair (flag : String) : Option String → List String
  | some s => if s ≠ "" then [flag, s] else []
  | none => []

/-- Spec (C5): the fixed prelude, the five optional flag pairs in the
fixed order session, model, agent, attach, dir, then the literal message
last. -/
def spec_build_command (message : String)
    (o : OpencodeClient.OpenCodeRunOptions) : List String :=
  ["opencode", "run", "--format", "json"] ++
    optFlagPair "--session" o.session_id ++ optFlagPair "--model" o.model ++
    optFlagPair "--agent" o.agent ++ optFlagPair "--attach" o.attach ++
    optFlagPair "--dir" o.directory ++ [message]

/-! ## General lemmas -/

/-- `Except` bind on a success, for rewriting `do` blocks. -/
theorem except_bind_ok {e a b : Type} (x : a) (f : a → Except e b) :
    (Except.ok x >>= f : Except e b) = f x := rfl

/-- `Except` bind on a failure. -/
theorem except_bind_error {e a b : Type} (x : e) (f : a → Except e b) :
    (Except.error x >>= f : Except e b) = Except.error x := rfl

/-- `pure` of `Except` is `Except.ok`. -/
theorem except_pure {e a : Type} (x : a) : (pure x : Except e a) = Except.ok x := rfl

/-- `Except.map` on a success. -/
theorem except_map_ok {e a b : Type} (x : a) (f : a → b) :
    (Except.ok x : Except e a).map f = Except.ok (f x) := rfl

/-- `Except.map` on a failure. -/
theorem except_map_error {e a b : Type} (x : e) (f : a → b) :
    (Except.error x : Except e a).map f = Except.error x := rfl


/-! ## Round-trip lemmas for the dumped session payload -/

/-- Every character is a Unicode scalar value: below the surrogate range
or strictly between it and `0x110000`. -/
theorem char_toNat_valid (c : Char) :
    c.toNat < 0xd800 ∨ (0xdfff < c.toNat ∧ c.toNat < 0x110000) :=
  c.valid

/-- Decoding inverts the hex-digit encoder on digit values. -/
theorem fromHexDigit_hexDigit : ∀ k : Nat, k < 16 →
    fromHexDigit (hexDigit k) = some k := by decide

/-- Reading four emitted hex digits recovers a value below `0x10000`. -/
theorem hex4Val_hexDigit (n : Nat) (h : n < 0x10000) :
    hex4Val (hexDigit (n / 4096 % 16)) (hexDigit (n / 256 % 16))
      (hexDigit (n / 16 % 16)) (hexDigit (n % 16)) = some n := by
  rw [hex4Val, fromHexDigit_hexDigit _ (by omega), fromHexDigit_hexDigit _ (by omega),
    fromHexDigit_hexDigit _ (by omega), fromHexDigit_hexDigit _ (by omega)]
  exact congrArg some (by omega)




/-- One literal (unescaped) character inside a string body. -/
theorem readStringBody_lit (n : Nat) (c : Char) (l : List Char) (h1 : ¬ c = '"')
    (h2 : ¬ c = '\\') (h3 : ¬ c.toNat < 0x20) :
    readStringBody (n + 1) (c :: l) = consStr c (readStringBody n l) := by
  simp only [readStringBody]
  simp [h1, h2, h3]

/-- The closing quote of a string body. -/
theorem readStringBody_close (n : Nat) (l : List Char) :
    readStringBody (n + 1) ('"' :: l) = some ([], l) := by
  simp only [readStringBody]
  simp

/-- The `\"` escape. -/
theorem readStringBody_esc_quote (n : Nat) (l : List Char) :
    readStringBody (n + 1 + 1) ('\\' :: '"' :: l) = consStr '"' (readStringBody n l) := by
  simp only [readStringBody, readEscape]
  simp +decide

/-- The `\\` escape. -/
theorem readStringBody_esc_backslash (n : Nat) (l : List Char) :
    readStringBody (n + 1 + 1) ('\\' :: '\\' :: l) = consStr '\\' (readStringBody n l) := by
  simp only [readStringBody, readEscape]
  simp +decide

/-- The `\n` escape. -/
theorem readStringBody_esc_n (n : Nat) (l : List Char) :
    readStringBody (n + 1 + 1) ('\\' :: 'n' :: l) = consStr '\n' (readStringBody n l) := by
  simp only [readStringBody, readEscape]
  simp +decide

/-- The `\r` escape. -/
theorem readStringBody_esc_r (n : Nat) (l : List Char) :
    readStringBody (n + 1 + 1) ('\\' :: 'r' :: l) = consStr '\r' (readStringBody n l) := by
  simp only [readStringBody, readEscape]
  simp +decide

/-- The `\t` escape. -/
theorem readStringBody_esc_t (n : Nat) (l : List Char) :
    readStringBody (n + 1 + 1) ('\\' :: 't' :: l) = consStr '\t' (readStringBody n l) := by
  simp only [readStringBody, readEscape]
  simp +decide

/-- The `\b` escape. -/
theorem readStringBody_esc_b (n : Nat) (l : List Char) :
    readStringBody (n + 1 + 1) ('\\' :: 'b' :: l) = consStr '\x08' (readStringBody n l) := by
  simp only [readStringBody, readEscape]
  simp +decide

/-- The `\f` escape. -/
theorem readStringBody_esc_f (n : Nat) (l : List Char) :
    readStringBody (n + 1 + 1) ('\\' :: 'f' :: l) = consStr '\x0c' (readStringBody n l) := by
  simp only [readStringBody, readEscape]
  simp +decide

/-- A `\uXXXX` escape outside the surrogate ranges. -/
theorem readStringBody_esc_u (n : Nat) (h1 h2 h3 h4 : Char) (k : Nat) (l : List Char)
    (hv : hex4Val h1 h2 h3 h4 = some k) (hhi : ¬ (0xd800 ≤ k ∧ k ≤ 0xdbff))
    (hlo : ¬ (0xdc00 ≤ k ∧ k ≤ 0xdfff)) :
    readStringBody (n + 1 + 1 + 1) ('\\' :: 'u' :: h1 :: h2 :: h3 :: h4 :: l) =
      consStr (Char.ofNat k) (readStringBody n l) := by
  simp only [readStringBody, readEscape, readUnicodeEsc]
  simp +decide [hv, hhi, hlo]

/-- A surrogate-pair escape `\uHHHH\uLLLL`. -/
theorem readStringBody_esc_u_pair (n : Nat) (h1 h2 h3 h4 g1 g2 g3 g4 : Char)
    (k m : Nat) (l : List Char)
    (hv1 : hex4Val h1 h2 h3 h4 = some k) (hk : 0xd800 ≤ k ∧ k ≤ 0xdbff)
    (hv2 : hex4Val g1 g2 g3 g4 = some m) (hm : 0xdc00 ≤ m ∧ m ≤ 0xdfff) :
    readStringBody (n + 1 + 1 + 1 + 1)
        ('\\' :: 'u' :: h1 :: h2 :: h3 :: h4 :: '\\' :: 'u' :: g1 :: g2 :: g3 :: g4 :: l) =
      consStr (Char.ofNat (0x10000 + (k - 0xd800) * 0x400 + (m - 0xdc00)))
        (readStringBody n l) := by
  simp only [readStringBody, readEscape, readUnicodeEsc, readLowSurrogate]
  simp +decide [hv1, hk, hv2, hm]

/-- `json.dumps` escapes a double quote. -/
theorem escChar_quote : escChar '"' = ['\\', '"'] := by decide

/-- `json.dumps` escapes a backslash. -/
theorem escChar_backslash : escChar '\\' = ['\\', '\\'] := by decide

/-- `json.dumps` short escape for newline. -/
theorem escChar_n : escChar '\n' = ['\\', 'n'] := by decide

/-- `json.dumps` short escape for carriage return. -/
theorem escChar_r : escChar '\r' = ['\\', 'r'] := by decide

/-- `json.dumps` short escape for tab. -/
theorem escChar_t : escChar '\t' = ['\\', 't'] := by decide

/-- `json.dumps` short escape for backspace. -/
theorem escChar_b : escChar '\x08' = ['\\', 'b'] := by decide

/-- `json.dumps` short escape for form feed. -/
theorem escChar_f : escChar '\x0c' = ['\\', 'f'] := by decide

/-- Printable ASCII characters other than quote and backslash are
emitted unescaped. -/
theorem escChar_raw (c : Char) (h8 : 0x20 ≤ c.toNat ∧ c.toNat ≤ 0x7e)
    (h1 : ¬ c = '"') (h2 : ¬ c = '\\') : escChar c = [c] := by
  have h3 : ¬ c = '\n' := fun h => absurd (h ▸ h8) (by decide)
  have h4 : ¬ c = '\r' := fun h => absurd (h ▸ h8) (by decide)
  have h5 : ¬ c = '\t' := fun h => absurd (h ▸ h8) (by decide)
  have h6 : ¬ c = '\x08' := fun h => absurd (h ▸ h8) (by decide)
  have h7 : ¬ c = '\x0c' := fun h => absurd (h ▸ h8) (by decide)
  simp [escChar, h1, h2, h3, h4, h5, h6, h7, h8]

/-- Other characters of the basic multilingual plane become one `\uXXXX`
escape. -/
theorem escChar_u (c : Char) (h3 : ¬ c = '\n') (h4 : ¬ c = '\r')
    (h5 : ¬ c = '\t') (h6 : ¬ c = '\x08') (h7 : ¬ c = '\x0c')
    (h8 : ¬ (0x20 ≤ c.toNat ∧ c.toNat ≤ 0x7e)) (h9 : c.toNat < 0x10000) :
    escChar c = '\\' :: 'u' :: hexDigit (c.toNat / 4096 % 16) ::
      hexDigit (c.toNat / 256 % 16) :: hexDigit (c.toNat / 16 % 16) ::
      hexDigit (c.toNat % 16) :: [] := by
  have h1 : ¬ c = '"' := fun h => absurd (h ▸ h8) (by decide)
  have h2 : ¬ c = '\\' := fun h => absurd (h ▸ h8) (by decide)
  simp [escChar, h1, h2, h3, h4, h5, h6, h7, h8, h9]

/-- Characters above the basic multilingual plane become a surrogate-pair
escape. -/
theorem escChar_u_pair (c : Char) (h9 : ¬ c.toNat < 0x10000) :
    escChar c = '\\' :: 'u' ::
      hexDigit ((0xd800 + (c.toNat - 0x10000) / 0x400) / 4096 % 16) ::
      hexDigit ((0xd800 + (c.toNat - 0x10000) / 0x400) / 256 % 16) ::
      hexDigit ((0xd800 + (c.toNat - 0x10000) / 0x400) / 16 % 16) ::
      hexDigit ((0xd800 + (c.toNat - 0x10000) / 0x400) % 16) :: '\\' :: 'u' ::
      hexDigit ((0xdc00 + (c.toNat - 0x10000) % 0x400) / 4096 % 16) ::
      hexDigit ((0xdc00 + (c.toNat - 0x10000) % 0x400) / 256 % 16) ::
      hexDigit ((0xdc00 + (c.toNat - 0x10000) % 0x400) / 16 % 16) ::
      hexDigit ((0xdc00 + (c.toNat - 0x10000) % 0x400) % 16) :: [] := by
  have h1 : ¬ c = '"' := fun h => absurd (h ▸ h9) (by decide)
  have h2 : ¬ c = '\\' := fun h => absurd (h ▸ h9) (by decide)
  by_cases h3 : c = '\n'
  · exact absurd (h3 ▸ h9) (by decide)
  by_cases h4 : c = '\r'
  · exact absurd (h4 ▸ h9) (by decide)
  by_cases h5 : c = '\t'
  · exact absurd (h5 ▸ h9) (by decide)
  by_cases h6 : c = '\x08'
  · exact absurd (h6 ▸ h9) (by decide)
  by_cases h7 : c = '\x0c'
  · exact absurd (h7 ▸ h9) (by decide)
  have h8 : ¬ (0x20 ≤ c.toNat ∧ c.toNat ≤ 0x7e) := fun h => h9 (by omega)
  simp [escChar, h1, h2, h3, h4, h5, h6, h7, h8, h9]

/-- Reading a `json.dumps`-escaped string body recovers the original
characters and stops at the closing quote; the fuel is the encoded length
plus arbitrary slack. -/
theorem readStringBody_escList (cs : List Char) : ∀ (rest : List Char) (n : Nat),
    readStringBody ((escList cs).length + n + 1) (escList cs ++ '"' :: rest) =
      some (cs, rest) := by
  induction cs with
  | nil =>
    intro rest n
    simpa [escList] using readStringBody_close n rest
  | cons c cs ih =>
    intro rest n
    have hesc : escList (c :: cs) = escChar c ++ escList cs := by simp [escList]
    rw [hesc, List.append_assoc]
    by_cases h1 : c = '"'
    · subst h1
      rw [escChar_quote]
      have harith : (['\\', '"'] ++ escList cs).length + n + 1 =
          ((escList cs).length + n + 1) + 1 + 1 := by simp; omega
      rw [harith]
      simp only [List.cons_append, List.nil_append]
      rw [readStringBody_esc_quote, ih rest n]
      rfl
    by_cases h2 : c = '\\'
    · subst h2
      rw [escChar_backslash]
      have harith : (['\\', '\\'] ++ escList cs).length + n + 1 =
          ((escList cs).length + n + 1) + 1 + 1 := by simp; omega
      rw [harith]
      simp only [List.cons_append, List.nil_append]
      rw [readStringBody_esc_backslash, ih rest n]
      rfl
    by_cases h3 : c = '\n'
    · subst h3
      rw [escChar_n]
      have harith : (['\\', 'n'] ++ escList cs).length + n + 1 =
          ((escList cs).length + n + 1) + 1 + 1 := by simp; omega
      rw [harith]
      simp only [List.cons_append, List.nil_append]
      rw [readStringBody_esc_n, ih rest n]
      rfl
    by_cases h4 : c = '\r'
    · subst h4
      rw [escChar_r]
      have harith : (['\\', 'r'] ++ escList cs).length + n + 1 =
          ((escList cs).length + n + 1) + 1 + 1 := by simp; omega
      rw [harith]
      simp only [List.cons_append, List.nil_append]
      rw [readStringBody_esc_r, ih rest n]
      rfl
    by_cases h5 : c = '\t'
    · subst h5
      rw [escChar_t]
      have harith : (['\\', 't'] ++ escList cs).length + n + 1 =
          ((escList cs).length + n + 1) + 1 + 1 := by simp; omega
      rw [harith]
      simp only [List.cons_append, List.nil_append]
      rw [readStringBody_esc_t, ih rest n]
      rfl
    by_cases h6 : c = '\x08'
    · subst h6
      rw [escChar_b]
      have harith : (['\\', 'b'] ++ escList cs).length + n + 1 =
          ((escList cs).length + n + 1) + 1 + 1 := by simp; omega
      rw [harith]
      simp only [List.cons_append, List.nil_append]
      rw [readStringBody_esc_b, ih rest n]
      rfl
    by_cases h7 : c = '\x0c'
    · subst h7
      rw [escChar_f]
      have harith : (['\\', 'f'] ++ escList cs).length + n + 1 =
          ((escList cs).length + n + 1) + 1 + 1 := by simp; omega
      rw [harith]
      simp only [List.cons_append, List.nil_append]
      rw [readStringBody_esc_f, ih rest n]
      rfl
    by_cases h8 : 0x20 ≤ c.toNat ∧ c.toNat ≤ 0x7e
    · rw [escChar_raw c h8 h1 h2]
      have harith : ([c] ++ escList cs).length + n + 1 =
          ((escList cs).length + n + 1) + 1 := by simp; omega
      rw [harith]
      simp only [List.cons_append, List.nil_append]
      rw [readStringBody_lit ((escList cs).length + n + 1) c _ h1 h2 (by omega),
        ih rest n]
      rfl
    by_cases h9 : c.toNat < 0x10000
    · rw [escChar_u c h3 h4 h5 h6 h7 h8 h9]
      have hval := char_toNat_valid c
      have hhi : ¬ (0xd800 ≤ c.toNat ∧ c.toNat ≤ 0xdbff) := by omega
      have hlo : ¬ (0xdc00 ≤ c.toNat ∧ c.toNat ≤ 0xdfff) := by omega
      have harith : ('\\' :: 'u' :: hexDigit (c.toNat / 4096 % 16) ::
          hexDigit (c.toNat / 256 % 16) :: hexDigit (c.toNat / 16 % 16) ::
          hexDigit (c.toNat % 16) :: [] ++ escList cs).length + n + 1 =
          ((escList cs).length + (n + 3) + 1) + 1 + 1 + 1 := by simp; omega
      rw [harith]
      simp only [List.cons_append, List.nil_append]
      rw [readStringBody_esc_u ((escList cs).length + (n + 3) + 1)
        (hexDigit (c.toNat / 4096 % 16)) (hexDigit (c.toNat / 256 % 16))
        (hexDigit (c.toNat / 16 % 16)) (hexDigit (c.toNat % 16)) c.toNat
        (escList cs ++ '"' :: rest) (hex4Val_hexDigit c.toNat h9) hhi hlo,
        Char.ofNat_toNat, ih rest (n + 3)]
      rfl
    · rw [escChar_u_pair c h9]
      have hval := char_toNat_valid c
      have hcub : c.toNat < 0x110000 := by omega
      have hhiv : 0xd800 + (c.toNat - 0x10000) / 0x400 < 0x10000 := by omega
      have hlov : 0xdc00 + (c.toNat - 0x10000) % 0x400 < 0x10000 := by omega
      have harith : ('\\' :: 'u' ::
          hexDigit ((0xd800 + (c.toNat - 0x10000) / 0x400) / 4096 % 16) ::
          hexDigit ((0xd800 + (c.toNat - 0x10000) / 0x400) / 256 % 16) ::
          hexDigit ((0xd800 + (c.toNat - 0x10000) / 0x400) / 16 % 16) ::
          hexDigit ((0xd800 + (c.toNat - 0x10000) / 0x400) % 16) :: '\\' :: 'u' ::
          hexDigit ((0xdc00 + (c.toNat - 0x10000) % 0x400) / 4096 % 16) ::
          hexDigit ((0xdc00 + (c.toNat - 0x10000) % 0x400) / 256 % 16) ::
          hexDigit ((0xdc00 + (c.toNat - 0x10000) % 0x400) / 16 % 16) ::
          hexDigit ((0xdc00 + (c.toNat - 0x10000) % 0x400) % 16) :: [] ++
            escList cs).length + n + 1 =
          ((escList cs).length + (n + 8) + 1) + 1 + 1 + 1 + 1 := by simp; omega
      rw [harith]
      simp only [List.cons_append, List.nil_append]
      rw [readStringBody_esc_u_pair ((escList cs).length + (n + 8) + 1)
        (hexDigit ((0xd800 + (c.toNat - 0x10000) / 0x400) / 4096 % 16))
        (hexDigit ((0xd800 + (c.toNat - 0x10000) / 0x400) / 256 % 16))
        (hexDigit ((0xd800 + (c.toNat - 0x10000) / 0x400) / 16 % 16))
        (hexDigit ((0xd800 + (c.toNat - 0x10000) / 0x400) % 16))
        (hexDigit ((0xdc00 + (c.toNat - 0x10000) % 0x400) / 4096 % 16))
        (hexDigit ((0xdc00 + (c.toNat - 0x10000) % 0x400) / 256 % 16))
        (hexDigit ((0xdc00 + (c.toNat - 0x10000) % 0x400) / 16 % 16))
        (hexDigit ((0xdc00 + (c.toNat - 0x10000) % 0x400) % 16))
        (0xd800 + (c.toNat - 0x10000) / 0x400) (0xdc00 + (c.toNat - 0x10000) % 0x400)
        (escList cs ++ '"' :: rest)
        (hex4Val_hexDigit _ hhiv) (by omega)
        (hex4Val_hexDigit _ hlov) (by omega)]
      have hback : 0x10000 +
          ((0xd800 + (c.toNat - 0x10000) / 0x400) - 0xd800) * 0x400 +
          ((0xdc00 + (c.toNat - 0x10000) % 0x400) - 0xdc00) = c.toNat := by omega
      rw [hback, Char.ofNat_toNat, ih rest (n + 8)]
      rfl


/-- `String.mk` is the inverse of `String.data`. -/
theorem string_mk_data (s : String) : String.mk s.data = s := rfl

/-- `String.data` of `String.mk`. -/
theorem string_data_mk (l : List Char) : (String.mk l).data = l := rfl

/-- `String.data` of a singleton. -/
theorem string_data_singleton (c : Char) : (String.singleton c).data = [c] := rfl

/-- The character list written by `save_session_id` for a session id: the
two-space-indented object with the escaped id, a closing newline, and the
appended trailing newline. -/
theorem payload_data (id : String) :
    (dumpsSessionPayload id ++ "\n").data =
      lbrace :: '\n' :: ' ' :: ' ' :: '"' :: (escList "session_id".data ++
        ('"' :: ':' :: ' ' :: '"' :: (escList id.data ++
          ('"' :: '\n' :: rbrace :: '\n' :: [])))) := by
  have h1 : "\n  ".data = ['\n', ' ', ' '] := rfl
  have h2 : "\"".data = ['"'] := rfl
  have h3 : ": ".data = [':', ' '] := rfl
  have h4 : "\n".data = ['\n'] := rfl
  simp only [dumpsSessionPayload, jsonQuote, String.data_append, string_data_mk,
    string_data_singleton, h1, h2, h3, h4]
  simp

/-- One step of `readValue` on an object opener whose first member starts
at `d`. -/
theorem readValue_obj_step (m : Nat) (rest : List Char) (d : Char)
    (rest2 : List Char) (hskip : skipJsonWs rest = d :: rest2)
    (hd : ¬ d = rbrace) :
    readValue (m + 1) (lbrace :: rest) = readMembers m (d :: rest2) [] := by
  simp only [readValue]
  simp [hskip, hd]

/-- One step of `readValue` on a string literal. -/
theorem readValue_str_step (m : Nat) (rest : List Char) :
    readValue (m + 1) ('"' :: rest) =
      (readStringBody m rest).map (fun p => (Json.str (String.mk p.1), p.2)) := by
  simp only [readValue]
  simp +decide

/-- One step of `readMembers` at a member key. -/
theorem readMembers_step (m : Nat) (cs : List Char)
    (acc : List (String × Json)) (rest : List Char)
    (hskip : skipJsonWs cs = '"' :: rest) :
    readMembers (m + 1) cs acc =
      (match readStringBody m rest with
      | none => none
      | some (key, r1) =>
        match skipJsonWs r1 with
        | ':' :: r2 =>
          (match readValue m (skipJsonWs r2) with
          | none => none
          | some (v, r3) =>
            let acc2 := acc ++ [(String.mk key, v)]
            match skipJsonWs r3 with
            | ',' :: r4 => readMembers m r4 acc2
            | d :: r4 => if d = rbrace then some (.obj acc2, r4) else none
            | [] => none)
        | _ => none) := by
  conv_lhs => rw [readMembers]
  rw [hskip]
  rfl

/-- `skipJsonWs` drops a leading JSON whitespace character. -/
theorem skipJsonWs_cons_ws (c : Char) (l : List Char)
    (h : c = ' ' ∨ c = '\t' ∨ c = '\n' ∨ c = '\r') :
    skipJsonWs (c :: l) = skipJsonWs l := by
  simp [skipJsonWs, List.dropWhile, h]

/-- `skipJsonWs` stops at a non-whitespace character. -/
theorem skipJsonWs_cons_nows (c : Char) (l : List Char)
    (h : ¬ (c = ' ' ∨ c = '\t' ∨ c = '\n' ∨ c = '\r')) :
    skipJsonWs (c :: l) = c :: l := by
  simp [skipJsonWs, List.dropWhile, h]

/-- Reading the dumped session payload yields the one-member object with
the original id; fuel is the escaped-id length plus slack. -/
theorem readValue_payload (id : String) (n : Nat) :
    readValue ((escList id.data).length + n + 13)
      ((dumpsSessionPayload id ++ "\n").data) =
      some (Json.obj [("session_id", Json.str id)], ['\n']) := by
  have hconc : escList "session_id".data =
      ['s', 'e', 's', 's', 'i', 'o', 'n', '_', 'i', 'd'] := by decide
  have hkey := readStringBody_escList "session_id".data
      (':' :: ' ' :: '"' :: (escList id.data ++ ('"' :: '\n' :: rbrace :: '\n' :: [])))
      ((escList id.data).length + n)
  rw [hconc, show (['s', 'e', 's', 's', 'i', 'o', 'n', '_', 'i', 'd'] :
      List Char).length + ((escList id.data).length + n) + 1 =
    (escList id.data).length + n + 11 from by simp; omega] at hkey
  simp only [List.cons_append, List.nil_append] at hkey
  have hval := readStringBody_escList id.data ('\n' :: rbrace :: '\n' :: []) (n + 9)
  rw [show (escList id.data).length + (n + 9) + 1 =
    (escList id.data).length + n + 10 from by omega] at hval
  have hks : String.mk ['s', 'e', 's', 's', 'i', 'o', 'n', '_', 'i', 'd'] =
      "session_id" := rfl
  rw [payload_data, hconc]
  simp only [List.cons_append, List.nil_append]
  rw [show (escList id.data).length + n + 13 =
    ((escList id.data).length + n + 12) + 1 from by omega]
  rw [readValue_obj_step ((escList id.data).length + n + 12) _ '"' _
    (by rw [skipJsonWs_cons_ws _ _ (by decide), skipJsonWs_cons_ws _ _ (by decide),
      skipJsonWs_cons_ws _ _ (by decide), skipJsonWs_cons_nows _ _ (by decide)])
    (by decide)]
  rw [show (escList id.data).length + n + 12 =
    ((escList id.data).length + n + 11) + 1 from by omega]
  rw [readMembers_step ((escList id.data).length + n + 11) _ [] _
    (skipJsonWs_cons_nows _ _ (by decide))]
  rw [hkey]
  simp only [skipJsonWs_cons_nows _ _ (by decide : ¬ (':' = ' ' ∨ ':' = '\t' ∨
    ':' = '\n' ∨ ':' = '\r'))]
  rw [skipJsonWs_cons_ws _ _ (by decide), skipJsonWs_cons_nows _ _ (by decide)]
  rw [show (escList id.data).length + n + 11 =
    ((escList id.data).length + n + 10) + 1 from by omega]
  rw [readValue_str_step, hval]
  simp only [Option.map, string_mk_data, hks, List.nil_append]
  rw [skipJsonWs_cons_ws _ _ (by decide), skipJsonWs_cons_nows _ _ (by decide)]
  simp +decide [rbrace]

/-- Length of the dumped payload in terms of the escaped id. -/
theorem payload_length (id : String) :
    (dumpsSessionPayload id ++ "\n").length = (escList id.data).length + 23 := by
  have h : (dumpsSessionPayload id ++ "\n").length =
      ((dumpsSessionPayload id ++ "\n").data).length := rfl
  have h10 : (escList "session_id".data).length = 10 := by decide
  rw [h, payload_data]
  simp [h10]
  omega

/-- `json.loads` inverts `json.dumps` on the session payload. -/
theorem jsonLoads_payload (id : String) :
    jsonLoads (dumpsSessionPayload id ++ "\n") =
      some (Json.obj [("session_id", Json.str id)]) := by
  have hskip : skipJsonWs ((dumpsSessionPayload id ++ "\n").data) =
      (dumpsSessionPayload id ++ "\n").data := by
    rw [payload_data]
    exact skipJsonWs_cons_nows _ _ (by decide)
  simp only [jsonLoads]
  rw [hskip, payload_length]
  rw [show (escList id.data).length + 23 + 1 =
    (escList id.data).length + 11 + 13 from by omega]
  rw [readValue_payload id 11]
  simp +decide [skipJsonWs]

/-- Loading right after saving yields the stripped id (or nothing when the
id strips to blank). -/
theorem load_after_save (fs : FileState) (X : String) :
    Cli.load_session_id (Cli.save_session_id fs X) =
      .ok (if pyStrip X ≠ "" then some (pyStrip X) else none) := by
  simp only [Cli.save_session_id, Cli.save_file_content, Cli.load_session_id]
  rw [jsonLoads_payload]
  have hobj : objLookup [("session_id", Json.str X)] "session_id" =
      some (Json.str X) := by simp [objLookup]
  simp only [Json.pyGet, hobj]
  by_cases h : pyStrip X = ""
  · simp [except_bind_ok, except_pure, h]
  · simp [except_bind_ok, except_pure, h]

/-- C3 (amended): `resolve_session_id` obeys the precedence — an explicit
non-empty id is persisted immediately and returned; the new-session flag
returns null without touching the file; otherwise the stored id is
loaded — and after saving an id X that is non-blank and free of
surrounding whitespace, resolution with neither flag returns X
unchanged. -/
theorem resolve_session_id_spec (sid : String) (new_session : Bool)
    (fs : FileState) (X : String) :
    (sid ≠ "" → Cli.resolve_session_id (some sid) new_session fs =
      .ok (some sid, Cli.save_session_id fs sid)) ∧
    (Cli.resolve_session_id none true fs = .ok (none, fs)) ∧
    (Cli.resolve_session_id none false fs =
      (Cli.load_session_id fs).map (fun r => (r, fs))) ∧
    (pyStrip X = X → X ≠ "" →
      Cli.resolve_session_id none false (Cli.save_session_id fs X) =
        .ok (some X, Cli.save_session_id fs X)) := by
  refine ⟨fun h => ?_, rfl, rfl, fun hstrip hne => ?_⟩
  · simp [Cli.resolve_session_id, h]
  · show (Cli.load_session_id (Cli.save_session_id fs X)).map
      (fun r => (r, Cli.save_session_id fs X)) = _
    rw [load_after_save]
    rw [hstrip, if_pos hne, except_map_ok]

/-- C3 witness: the explicit-id branch persists and returns the id, and
the stored id `ses_42` round-trips through the state file. -/
theorem resolve_session_id_spec_witness :
    Cli.resolve_session_id (some "ses_explicit") false FileState.absent =
      .ok (some "ses_explicit", Cli.save_session_id FileState.absent "ses_explicit") ∧
    Cli.resolve_session_id none false (Cli.save_session_id FileState.absent "ses_42") =
      .ok (some "ses_42", Cli.save_session_id FileState.absent "ses_42") :=
  ⟨(resolve_session_id_spec "ses_explicit" false FileState.absent "ses_42").1
      (by decide),
    (resolve_session_id_spec "ses_explicit" false FileState.absent "ses_42").2.2.2
      (by decide) (by decide)⟩

/-- C3 counterexample: after saving the padded id `" ses_1 "`, resolution
with neither flag set returns the stripped id `"ses_1"`, not the saved id
unchanged — the claimed unconditional round-trip fails. -/
theorem resolve_session_id_roundtrip_counterexample :
    Cli.resolve_session_id none false (Cli.save_session_id FileState.absent " ses_1 ") =
      .ok (some "ses_1", Cli.save_session_id FileState.absent " ses_1 ") ∧
    some "ses_1" ≠ some " ses_1 " := by
  constructor
  · decide
  · decide

/-- `isJsonStrEq` holds exactly on the equal string value. -/
theorem isJsonStrEq_iff (v : Option Json) (s : String) :
    isJsonStrEq v s = true ↔ v = some (Json.str s) := by
  cases v with
  | none => simp [isJsonStrEq]
  | some j => cases j <;> simp [isJsonStrEq]

/-- A blank line leaves the parser state unchanged. -/
theorem parse_events_step_blank (st : List String × Option String)
    (raw : String) (h : pyStrip raw = "") :
    OpencodeClient.parse_events_step st raw = .ok st := by
  simp [OpencodeClient.parse_events_step, h]

/-- An undecodable line leaves the parser state unchanged. -/
theorem parse_events_step_undecodable (st : List String × Option String)
    (raw : String) (h1 : ¬ pyStrip raw = "")
    (h2 : jsonLoads (pyStrip raw) = none) :
    OpencodeClient.parse_events_step st raw = .ok st := by
  simp [OpencodeClient.parse_events_step, h1, h2]

/-- The running session id update of the parser agrees with the
specification's per-event session extraction. -/
theorem session_update_eq (kvs : List (String × Json)) (so : Option String) :
    (match objLookup kvs "sessionID" with
     | some (Json.str s) => if s ≠ "" then some s else so
     | _ => so) =
    (match specSessionOf (Json.obj kvs) with
     | some s => some s
     | none => so) := by
  simp only [specSessionOf]
  rcases objLookup kvs "sessionID" with _ | j
  · rfl
  · cases j <;> try rfl
    case str s =>
      by_cases h : s = "" <;> simp [h]

/-- The parser step on a decoded object appends exactly the
specification's text chunk and applies the specification's session
update. -/
theorem parse_events_step_obj (cs : List String) (so : Option String)
    (raw : String) (kvs : List (String × Json)) (h1 : ¬ pyStrip raw = "")
    (h2 : jsonLoads (pyStrip raw) = some (.obj kvs)) :
    OpencodeClient.parse_events_step (cs, so) raw =
      .ok (cs ++ (specTextChunk (.obj kvs)).toList,
        match specSessionOf (.obj kvs) with
        | some s => some s
        | none => so) := by
  simp only [OpencodeClient.parse_events_step]
  rw [if_neg h1, h2]
  simp only [Json.pyGet, except_bind_ok, except_pure]
  rw [session_update_eq]
  by_cases hty : isJsonStrEq (objLookup kvs "type") "text"
  · have hlook : objLookup kvs "type" = some (Json.str "text") :=
      (isJsonStrEq_iff _ _).mp hty
    simp only [hty, not_true_eq_false, if_false, specTextChunk, hlook]
    rcases hp : objLookup kvs "part" with _ | jp
    · simp
    · cases jp with
      | obj pkvs =>
        rcases ht : objLookup pkvs "text" with _ | jt
        · simp [ht]
        · cases jt with
          | str s =>
            by_cases hs : s = "" <;> simp [ht, hs, isJsonStrEq]
          | null => simp [ht]
          | bool b => simp [ht]
          | num n => simp [ht]
          | arr l => simp [ht]
          | obj l => simp [ht]
      | null => simp
      | bool b => simp
      | num n => simp
      | str s => simp
      | arr l => simp
  · have hlook : objLookup kvs "type" ≠ some (Json.str "text") := fun h =>
      hty ((isJsonStrEq_iff _ _).mpr h)
    simp only [hty, not_false_eq_true, if_true, specTextChunk]
    rcases hl : objLookup kvs "type" with _ | jt
    · simp
    · cases jt with
      | str s =>
        have hns : s ≠ "text" := fun h => hlook (by rw [hl, h])
        simp [hns]
      | null => simp
      | bool b => simp
      | num n => simp
      | arr l => simp
      | obj l => simp

/-- Folding the parser step over well-formed lines accumulates exactly
the specification's text chunks and session update. -/
theorem parse_events_fold (lines : List String) :
    ∀ (cs : List String) (so : Option String),
    lines.all goodLine = true →
    lines.foldlM OpencodeClient.parse_events_step (cs, so) =
      .ok (cs ++ (decodedLines lines).filterMap specTextChunk,
        specLastSession (decodedLines lines) so) := by
  induction lines with
  | nil =>
    intro cs so _
    simp [decodedLines, specLastSession, except_pure]
  | cons raw ls ih =>
    intro cs so h
    rw [List.all_cons, Bool.and_eq_true] at h
    obtain ⟨hgood, hrest⟩ := h
    rw [List.foldlM_cons]
    by_cases hb : pyStrip raw = ""
    · rw [parse_events_step_blank _ _ hb, except_bind_ok, ih _ _ hrest]
      simp [decodedLines, hb]
    · have hobj : optIsObj (jsonLoads (pyStrip raw)) = true := by
        simpa [goodLine, hb] using hgood
      rcases hj : jsonLoads (pyStrip raw) with _ | j
      · rw [hj] at hobj
        simp [optIsObj] at hobj
      · cases j with
        | obj kvs =>
          rw [parse_events_step_obj _ _ _ _ hb hj, except_bind_ok, ih _ _ hrest]
          have hdec : decodedLines (raw :: ls) = .obj kvs :: decodedLines ls := by
            simp [decodedLines, hb, hj]
          rw [hdec]
          rw [List.filterMap_cons]
          cases hc : specTextChunk (.obj kvs) with
          | none => simp [specLastSession]
          | some t => simp [specLastSession]
        | null => rw [hj] at hobj; simp [optIsObj] at hobj
        | bool b => rw [hj] at hobj; simp [optIsObj] at hobj
        | num n => rw [hj] at hobj; simp [optIsObj] at hobj
        | str s => rw [hj] at hobj; simp [optIsObj] at hobj
        | arr l => rw [hj] at hobj; simp [optIsObj] at hobj

/-- C1: for every raw output string whose non-blank lines each decode to
a JSON object, `parse_opencode_events` returns the concatenation, in
input order with no separator, of `part.text` for every `type == "text"`
event with a non-empty string `part.text` inside an object-valued part,
trimmed of surrounding whitespace, paired with the last non-empty
`sessionID` seen across events of all types (or null). -/
theorem parse_opencode_events_spec (output : String)
    (h : (pySplitlines output).all goodLine = true) :
    OpencodeClient.parse_opencode_events output =
      .ok (spec_response_text output, spec_session_id output) := by
  simp only [OpencodeClient.parse_opencode_events]
  rw [parse_events_fold _ [] none h]
  simp [spec_response_text, spec_session_id, decodedEvents, except_bind_ok,
    except_pure]

/-- C1 witness: on the concrete exchange the parser returns
`("Hello world", ses_new)`, matching the specification functions. -/
theorem parse_opencode_events_spec_witness :
    OpencodeClient.parse_opencode_events sampleEventsOutput =
      .ok (spec_response_text sampleEventsOutput, spec_session_id sampleEventsOutput) ∧
    spec_response_text sampleEventsOutput = "Hello world" ∧
    spec_session_id sampleEventsOutput = some "ses_new" :=
  ⟨parse_opencode_events_spec sampleEventsOutput (by decide), by decide, by decide⟩

/-- C10: the three duplicated implementations of `parse_opencode_events`
(in `opencode_client.py`, `cli.py` and `voice_chat.py`) compute the same
function on every input. -/
theorem parse_opencode_events_duplicates_agree (output : String) :
    OpencodeClient.parse_opencode_events output = Cli.parse_opencode_events output ∧
    Cli.parse_opencode_events output = VoiceChat.parse_opencode_events output :=
  ⟨rfl, rfl⟩

/-- C2 (code bug): a line that is well-formed JSON but not an object —
here `[1, 2]` — makes `parse_opencode_events` raise `AttributeError`
(`.get` on a `list`) instead of skipping the line silently. -/
theorem parse_opencode_events_nonobject_line_raises :
    OpencodeClient.parse_opencode_events
      ("\x7b\"type\":\"text\",\"part\":\x7b\"text\":\"Hello\"\x7d\x7d\n[1, 2]\n") =
      .error "AttributeError: list object has no attribute get" := by decide

/-- C7 (code bug): a state file whose content is well-formed JSON but not
an object — here `[1, 2]` — makes `load_session_id` raise
`AttributeError` (`data.get` on a `list`) instead of returning null. -/
theorem load_session_id_nonobject_content_raises :
    Cli.load_session_id (FileState.content "[1, 2]") =
      .error "AttributeError: list object has no attribute get" := by decide

/-- The cases of C7 the code does handle: missing files, unreadable
files, and invalid JSON all load as null without raising. -/
theorem load_session_id_handled_cases (exc : String) :
    Cli.load_session_id FileState.absent = .ok none ∧
    Cli.load_session_id (FileState.unreadable exc) = .ok none ∧
    Cli.load_session_id (FileState.content "\x7bnot-valid-json") = .ok none :=
  ⟨rfl, rfl, by decide⟩

/-- C9 (code bug): `parse_args` converts `--input-sample-rate` and
`--input-channels` with plain `int`, so the non-positive values `0` and
`-1` are accepted and produce a parsed namespace instead of a parse-time
error (the repository's own test expects `SystemExit` here). -/
theorem parse_args_accepts_nonpositive_input_values :
    Cli.parse_input_sample_rate "0" = .ok 0 ∧
    Cli.parse_input_channels "-1" = .ok (-1) ∧
    Cli.parse_input_sample_rate "16000" = .ok 16000 := by
  refine ⟨by decide, ?_, by decide⟩
  decide

/-- The parser step on a decoded non-object raises the corresponding
`AttributeError`. -/
theorem parse_events_step_nonobj (st : List String × Option String)
    (raw : String) (j : Json) (hb : ¬ pyStrip raw = "")
    (hj : jsonLoads (pyStrip raw) = some j) (hno : optIsObj (some j) = false) :
    OpencodeClient.parse_events_step st raw = .error (attrErrorMsg j) := by
  cases j with
  | obj kvs => simp [optIsObj] at hno
  | null =>
    simp [OpencodeClient.parse_events_step, hb, hj, Json.pyGet, except_bind_error]
  | bool b =>
    simp [OpencodeClient.parse_events_step, hb, hj, Json.pyGet, except_bind_error]
  | num n =>
    simp [OpencodeClient.parse_events_step, hb, hj, Json.pyGet, except_bind_error]
  | str s =>
    simp [OpencodeClient.parse_events_step, hb, hj, Json.pyGet, except_bind_error]
  | arr l =>
    simp [OpencodeClient.parse_events_step, hb, hj, Json.pyGet, except_bind_error]

/-- Any error of the parser step is an `AttributeError`. -/
theorem parse_events_step_error_shape (st : List String × Option String)
    (raw : String) (e : String)
    (h : OpencodeClient.parse_events_step st raw = .error e) :
    ∃ j : Json, e = attrErrorMsg j := by
  by_cases hb : pyStrip raw = ""
  · rw [parse_events_step_blank _ _ hb] at h
    exact absurd h (by simp)
  · rcases hj : jsonLoads (pyStrip raw) with _ | j
    · rw [parse_events_step_undecodable _ _ hb hj] at h
      exact absurd h (by simp)
    · by_cases ho : optIsObj (some j) = true
      · obtain ⟨kvs, rfl⟩ : ∃ kvs, j = Json.obj kvs := by
          cases j <;> first | exact ⟨_, rfl⟩ | simp [optIsObj] at ho
        obtain ⟨cs, so⟩ := st
        rw [parse_events_step_obj cs so _ _ hb hj] at h
        exact absurd h (by simp)
      · rw [parse_events_step_nonobj st raw j hb hj (by simpa using ho)] at h
        exact ⟨j, (Except.error.injEq _ _).mp h.symm⟩

/-- Any error of the event-line fold is an `AttributeError`. -/
theorem parse_events_fold_error_shape (lines : List String) :
    ∀ (st : List String × Option String) (e : String),
    lines.foldlM OpencodeClient.parse_events_step st = .error e →
    ∃ j : Json, e = attrErrorMsg j := by
  induction lines with
  | nil =>
    intro st e h
    rw [List.foldlM_nil] at h
    exact absurd h (by simp [except_pure])
  | cons raw ls ih =>
    intro st e h
    rw [List.foldlM_cons] at h
    rcases hstep : OpencodeClient.parse_events_step st raw with e2 | st2
    · rw [hstep, except_bind_error] at h
      obtain rfl : e2 = e := (Except.error.injEq _ _).mp h
      exact parse_events_step_error_shape st raw _ hstep
    · rw [hstep, except_bind_ok] at h
      exact ih st2 e h

/-- Any error of `parse_opencode_events` is an `AttributeError`. -/
theorem parse_opencode_events_error_shape (output : String) (e : String)
    (h : OpencodeClient.parse_opencode_events output = .error e) :
    ∃ j : Json, e = attrErrorMsg j := by
  simp only [OpencodeClient.parse_opencode_events] at h
  rcases hf : (pySplitlines output).foldlM OpencodeClient.parse_events_step
      ([], none) with e2 | st
  · rw [hf, except_bind_error] at h
    obtain rfl : e2 = e := (Except.error.injEq _ _).mp h
    exact parse_events_fold_error_shape _ _ _ hf
  · rw [hf, except_bind_ok] at h
    obtain ⟨a, b⟩ := st
    exact absurd h (by simp [except_pure])

/-- An `AttributeError` message is never a process-failure message. -/
theorem attrErrorMsg_ne_process_failure (j : Json) (rest : String) :
    attrErrorMsg j ≠ "opencode run failed (" ++ rest := by
  intro h
  have hd := congrArg String.data h
  simp only [attrErrorMsg, String.data_append] at hd
  have hh := congrArg List.head? hd
  simp [List.cons_append] at hh

/-- C4: when the assistant process launches and exits non-zero,
`ask_opencode` fails with `opencode run failed (<code>): <details>`,
details being the trimmed stderr with fallback to the trimmed stdout —
and for launched processes that exit zero, no failure ever carries a
message of that form. -/
theorem ask_opencode_process_failure (prompt : String)
    (options : OpencodeClient.OpenCodeRunOptions) (returncode : Int)
    (stdout_ stderr_ : String) :
    (returncode ≠ 0 →
      OpencodeClient.ask_opencode prompt options
          (.completed returncode stdout_ stderr_) =
        .error ("opencode run failed (" ++ toString returncode ++ "): " ++
          pyOr (pyStrip stderr_) (pyStrip stdout_))) ∧
    (returncode = 0 → ∀ e,
      OpencodeClient.ask_opencode prompt options
          (.completed returncode stdout_ stderr_) = .error e →
      ∀ rest, e ≠ "opencode run failed (" ++ rest) := by
  constructor
  · intro h
    simp [OpencodeClient.ask_opencode, h]
  · intro h e herr rest
    subst h
    simp only [OpencodeClient.ask_opencode, ne_eq, not_true_eq_false,
      reduceIte] at herr
    rcases hp : OpencodeClient.parse_opencode_events stdout_ with e2 | pr
    · rw [hp, except_bind_error] at herr
      obtain rfl : e2 = e := (Except.error.injEq _ _).mp herr
      obtain ⟨j, rfl⟩ := parse_opencode_events_error_shape _ _ hp
      exact attrErrorMsg_ne_process_failure j rest
    · rw [hp, except_bind_ok] at herr
      obtain ⟨a, b⟩ := pr
      exact absurd herr (by simp [except_pure])

/-- C4 witness: exit code 7 with stderr `boom` produces exactly the
message `opencode run failed (7): boom`. -/
theorem ask_opencode_process_failure_witness :
    OpencodeClient.ask_opencode "hello"
        ⟨some "ses_1", none, none, none, none⟩
        (.completed 7 "" "boom") =
      .error "opencode run failed (7): boom" := by
  have h := (ask_opencode_process_failure "hello"
    ⟨some "ses_1", none, none, none, none⟩ 7 "" "boom").1 (by decide)
  rw [h]
  decide

/-- Folding one optional flag onto a command equals appending its
specification flag pair. -/
theorem append_optFlagPair (cmd : List String) (flag : String)
    (o : Option String) :
    (match o with
     | some s => if s ≠ "" then cmd ++ [flag, s] else cmd
     | none => cmd) = cmd ++ optFlagPair flag o := by
  cases o with
  | none => simp [optFlagPair]
  | some s => by_cases h : s = "" <;> simp [optFlagPair, h]

/-- C5: `build_opencode_command` produces exactly the specification
command — each flag pair appears iff its option is non-empty, in the
fixed order, with the message as final argument. -/
theorem build_opencode_command_spec (message : String)
    (options : OpencodeClient.OpenCodeRunOptions) :
    OpencodeClient.build_opencode_command message options =
      spec_build_command message options := by
  simp only [OpencodeClient.build_opencode_command, append_optFlagPair,
    spec_build_command]

/-- C8: when the captured text's trimmed, case-folded form is an exit
phrase, the loop iteration stops and no dispatch action occurs — the
check runs before dispatch, so the text is never sent to the
assistant. -/
theorem exit_phrase_stops_loop (ansi speaker : Bool) (state_path_str : String)
    (session_id : Option String) (fs : FileState) (env : Cli.TurnEnv)
    (text : String) (language : Option String)
    (hc : env.capture = .ok text language)
    (hx : pyLower (pyStrip text) ∈ Cli.EXIT_PHRASES) :
    ∃ trace,
      Cli.run_voice_chat_iter ansi speaker state_path_str session_id fs env =
        .stopLoop trace ∧ ∀ m, Cli.Action.dispatch m ∉ trace := by
  have htext : ¬ text = "" := by
    rintro rfl
    revert hx
    decide
  rcases language with _ | l
  · simp only [Cli.run_voice_chat_iter, hc]
    rw [if_neg htext, if_pos hx]
    refine ⟨_, rfl, fun m hm => ?_⟩
    simp at hm
  · simp only [Cli.run_voice_chat_iter, hc]
    rw [if_neg htext, if_pos hx]
    refine ⟨_, rfl, fun m hm => ?_⟩
    by_cases hl : l = "" <;> simp [hl] at hm

/-- C8 witness: the captured texts `"quit"`, `"  Quit "` and `"GOODBYE"`
each stop the loop with no dispatch. -/
theorem exit_phrase_stops_loop_witness :
    (∃ trace, Cli.run_voice_chat_iter false false "state" none FileState.absent
        ⟨.ok "quit" none, .ok "" none, none, .done⟩ = .stopLoop trace ∧
        ∀ m, Cli.Action.dispatch m ∉ trace) ∧
    (∃ trace, Cli.run_voice_chat_iter false false "state" none FileState.absent
        ⟨.ok "  Quit " none, .ok "" none, none, .done⟩ = .stopLoop trace ∧
        ∀ m, Cli.Action.dispatch m ∉ trace) ∧
    (∃ trace, Cli.run_voice_chat_iter false false "state" none FileState.absent
        ⟨.ok "GOODBYE" none, .ok "" none, none, .done⟩ = .stopLoop trace ∧
        ∀ m, Cli.Action.dispatch m ∉ trace) :=
  ⟨exit_phrase_stops_loop false false "state" none FileState.absent _ "quit" none
      rfl (by decide),
    exit_phrase_stops_loop false false "state" none FileState.absent _ "  Quit " none
      rfl (by decide),
    exit_phrase_stops_loop false false "state" none FileState.absent _ "GOODBYE" none
      rfl (by decide)⟩

/-- C6 (code bug): when `save_session_id` raises after the assistant
reports a new session id, the exception escapes the loop iteration
uncaught (there is no handler around the save), instead of being reported
and the loop continuing. -/
theorem save_failure_escapes_loop :
    Cli.run_voice_chat_iter false false "state.json" none FileState.absent
        ⟨.ok "hello" none, .ok "Hello back" (some "ses_new"),
          some "OSError: disk full", .done⟩ =
      .uncaught "OSError: disk full"
        [Cli.Action.toStdout "You:\nhello\n\n",
          Cli.Action.toStderr "Asking opencode...\n",
          Cli.Action.dispatch "hello"] := by decide
